import Mathlib

/-!
Verification of `Samples/py/pcloud_compute.py` (HoloLensForCV point-cloud
computation script).

Shallow embedding conventions:
* 16-bit raw depth samples are `ℕ` (values below 2^16, as produced by the
  image decoder for a 16-bit PGM).
* numpy float values that may be infinite (the ray-table entries) are
  modelled by `PyF`; `np.isinf` is true on the `infinite` constructor.  The
  sign of an infinity never matters to the script (an infinite component
  only ever causes the pixel to be discarded), so one constructor suffices.
* exact decimal / integer arithmetic of the script is modelled over `ℚ`;
  the unprojection arithmetic (which involves `np.sqrt`) is idealised over
  `ℝ`, the standard exact-real idealisation of the script's float math.
* Python exceptions are modelled with `Except String`; the string carries
  the exception class for documentation only.
* numpy in-place mutation (`img.byteswap(inplace=True)`) is modelled by
  returning the new contents of the mutated array alongside the result.
-/

/-- 3D point with real coordinates. -/
abbrev R3 : Type := ℝ × ℝ × ℝ

/-- numpy float value as stored in the ray table: finite, or an infinity
(`np.isinf` is true on it).  Sign of the infinity is irrelevant to the
script, so it is not tracked. -/
inductive PyF where
  | infinite : PyF
  | finite : ℚ → PyF
deriving DecidableEq

/-- `np.isinf` on a ray-table value. -/
def np_isinf : PyF → Bool
  | PyF.infinite => true
  | PyF.finite _ => false

/-- The rational value of a finite `PyF`; junk value 0 on an infinity
(only ever used after an `np_isinf` guard). -/
def PyF.val : PyF → ℚ
  | PyF.infinite => 0
  | PyF.finite q => q

/-- Byte-order swap of a 16-bit value, as `numpy.ndarray.byteswap` performs
elementwise on a `uint16` array: the low byte and the high byte exchange
places. -/
def bswap16 (n : ℕ) : ℕ :=
  (n % 256) * 256 + n / 256 % 256

/-- In-memory value of a 16-bit sample whose big-endian byte encoding
represents the integer `v`, when the array is interpreted with the opposite
(host, little-endian) byte order — the state of a raw sensor sample before
the mandatory byte swap (repo issue #19). -/
def be16_store (v : ℕ) : ℕ :=
  bswap16 v

/-- `pgm2distance(img)`: `img.byteswap(inplace=True)` followed by
`img.astype(np.float) / 1000.0`.  First component: the returned distance
array in meters.  Second component: the contents of the caller's array
after the call (the in-place byte swap mutates it). -/
def pgm2distance (img : List (List ℕ)) : List (List ℚ) × List (List ℕ) :=
  let swapped := img.map (fun row => row.map bswap16)
  (swapped.map (fun row => row.map (fun n : ℕ => (n : ℚ) / 1000)), swapped)

/-- A 4x4 pose matrix (entries are exact rationals, idealising the float
entries of the script). -/
abbrev M4 : Type := Matrix (Fin 4) (Fin 4) ℚ

/-- `cam2world[:3, :3]` when a pose is given, else `np.eye(3)`. -/
def poseR : Option M4 → Fin 3 → Fin 3 → ℚ
  | none => fun i j => if i = j then 1 else 0
  | some m => fun i j => m i.castSucc j.castSucc

/-- `cam2world[:3, 3]` when a pose is given, else `np.zeros(3)`. -/
def poseT : Option M4 → Fin 3 → ℚ
  | none => fun _ => 0
  | some m => fun i => m i.castSucc 3

/-- `np.dot(R, point) + t` for a 3-vector. -/
noncomputable def rot_apply (R : Fin 3 → Fin 3 → ℚ) (t : Fin 3 → ℚ) (p : R3) : R3 :=
  ((R 0 0 : ℝ) * p.1 + (R 0 1 : ℝ) * p.2.1 + (R 0 2 : ℝ) * p.2.2 + (t 0 : ℝ),
   (R 1 0 : ℝ) * p.1 + (R 1 1 : ℝ) * p.2.1 + (R 1 2 : ℝ) * p.2.2 + (t 1 : ℝ),
   (R 2 0 : ℝ) * p.1 + (R 2 1 : ℝ) * p.2.1 + (R 2 2 : ℝ) * p.2.2 + (t 2 : ℝ))

/-- Body of the per-pixel loop of `get_points`: given the decoded distance
`D` and the ray components `x`, `y` at one pixel, either discard the pixel
(`continue`) or emit the transformed 3D point.  The script computes
`z = -float(D) / np.sqrt(x*x + y*y + 1)` before the filter test, but the
value is only ever used on the non-discarded (finite, in-range) branch, so
the computation is placed there. -/
noncomputable def unproject_pixel (depth_range : ℚ × ℚ) (R : Fin 3 → Fin 3 → ℚ)
    (t : Fin 3 → ℚ) (x y : PyF) (D : ℚ) : Option R3 :=
  if np_isinf x = true ∨ np_isinf y = true ∨ D < depth_range.1 ∨ depth_range.2 < D then
    none
  else
    let xq := x.val
    let yq := y.val
    let z : ℝ := -(D : ℝ) / Real.sqrt ((xq : ℝ) * (xq : ℝ) + (yq : ℝ) * (yq : ℝ) + 1)
    some (rot_apply R t ((xq : ℝ) * z, (yq : ℝ) * z, z))

/-- `get_points(img, us, vs, cam2world, depth_range)`.  First component: the
emitted point list, in row-major pixel order.  Second component: the
contents of the caller's `img` array after the call (mutated by the
in-place byte swap inside `pgm2distance`).  Out-of-range indexing defaults
(`getD`) are never reached when `us`, `vs` have the image's shape, which is
the script's operating condition. -/
noncomputable def get_points (img : List (List ℕ)) (us vs : List (List PyF))
    (cam2world : Option M4) (depth_range : ℚ × ℚ) : List R3 × List (List ℕ) :=
  let dec := pgm2distance img
  let distance_img := dec.1
  let R := poseR cam2world
  let t := poseT cam2world
  ((List.range distance_img.length).flatMap (fun i =>
    (List.range ((distance_img.getD i []).length)).filterMap (fun j =>
      unproject_pixel depth_range R t
        ((us.getD i []).getD j (PyF.finite 0))
        ((vs.getD i []).getD j (PyF.finite 0))
        ((distance_img.getD i []).getD j 0))),
   dec.2)

/-- One whitespace-separated token of a line of an OBJ file.  `hash` is the
token `#`, `v` the token `v`; `num` is a token that is a decimal numeral,
carrying the exact rational value that numeral denotes; `other` is any
other token. -/
inductive ObjTok where
  | hash : ObjTok
  | v : ObjTok
  | num : ℚ → ObjTok
  | other : String → ObjTok
deriving DecidableEq

/-- Conversion of a token to a float, as numpy performs when a string is
assigned into a float array (`points[i,0] = elem[1]`): a numeral converts
to its value, anything else raises `ValueError`. -/
noncomputable def tok2float : ObjTok → Except String ℝ
  | ObjTok.num q => Except.ok (q : ℝ)
  | _ => Except.error "ValueError: could not convert string to float"

/-- The value printed by the `%.4f` format: the argument rounded to 4
fractional decimal digits (exact-real idealisation of the double-precision
formatting; decimal precision, not tie behaviour, is what the script's
format fixes). -/
noncomputable def fmt4 (x : ℝ) : ℚ :=
  (round (x * 10000) : ℤ) / 10000

/-- `save_obj(output_path, points)`: the lines of the written file, as
token lists.  Header line `# OBJ file`, then one `v %.4f %.4f %.4f` line
per point, in order. -/
noncomputable def save_obj (points : List R3) : List (List ObjTok) :=
  [ObjTok.hash, ObjTok.other "OBJ", ObjTok.other "file"] ::
    points.map (fun p =>
      [ObjTok.v, ObjTok.num (fmt4 p.1), ObjTok.num (fmt4 p.2.1), ObjTok.num (fmt4 p.2.2)])

/-- `read_obj(path)` on a file given as lines of tokens (`elem = line.split()`).
A line's first token `#` skips it; first token `v` parses `elem[1..3]` as a
point; any other first token is ignored; an empty line makes `elem[0]`
raise `IndexError`, as does a `v` line with fewer than 4 tokens.  Returns
the parsed points in file order (the script's trailing-row trim of its
preallocated array leaves exactly these rows). -/
noncomputable def read_obj : List (List ObjTok) → Except String (List R3)
  | [] => Except.ok []
  | line :: rest =>
    match line with
    | [] => Except.error "IndexError: list index out of range"
    | ObjTok.hash :: _ => read_obj rest
    | ObjTok.v :: ts =>
      match ts with
      | e1 :: e2 :: e3 :: _ =>
        match tok2float e1, tok2float e2, tok2float e3 with
        | Except.ok x, Except.ok y, Except.ok z =>
          match read_obj rest with
          | Except.ok ps => Except.ok ((x, y, z) :: ps)
          | Except.error e => Except.error e
        | Except.error e, _, _ => Except.error e
        | _, Except.error e, _ => Except.error e
        | _, _, Except.error e => Except.error e
      | _ => Except.error "IndexError: list index out of range"
    | ObjTok.num _ :: _ => read_obj rest
    | ObjTok.other _ :: _ => read_obj rest

/-- `np.asarray(l).reshape(w, h).T`: fails (`ValueError`) unless the list
has exactly `w * h` elements; on success returns the `(h, w)`-shaped
transposed matrix, whose row `r`, column `c` holds element `c * h + r`. -/
def np_reshape_t (l : List PyF) (w h : ℕ) : Except String (List (List PyF)) :=
  if l.length = w * h then
    Except.ok ((List.range h).map (fun r =>
      (List.range w).map (fun c => l.getD (c * h + r) (PyF.finite 0))))
  else
    Except.error "ValueError: cannot reshape array"

/-- `parse_projection_bin(path, w, h)` on the file's float32 contents:
even-indexed elements form `x_list`, odd-indexed `y_list`; each is reshaped
to `(w, h)` and transposed. -/
def parse_projection_bin (projection : List PyF) (w h : ℕ) :
    Except String (List (List PyF) × List (List PyF)) :=
  let x_list := (List.range ((projection.length + 1) / 2)).map
    (fun k => projection.getD (2 * k) (PyF.finite 0))
  let y_list := (List.range (projection.length / 2)).map
    (fun k => projection.getD (2 * k + 1) (PyF.finite 0))
  match np_reshape_t x_list w h with
  | Except.error e => Except.error e
  | Except.ok u =>
    match np_reshape_t y_list w h with
    | Except.error e => Except.error e
    | Except.ok v => Except.ok (u, v)

/-- Python `int(s)` for base 10, restricted to the cases the script meets:
succeeds exactly on a non-empty all-digit string, with its decimal value;
otherwise raises `ValueError`.  (Signs, surrounding whitespace and digit
group separators, which `int` also accepts, do not occur in file base
names handled by the script and are not modelled.) -/
def python_int (s : String) : Except String ℕ :=
  if s.length != 0 && s.toList.all Char.isDigit then
    Except.ok (s.toList.foldl (fun a c => 10 * a + (c.toNat - 48)) 0)
  else
    Except.error "ValueError: invalid literal for int with base 10"

/-- `np.linalg.inv` on a 4x4 matrix: `LinAlgError` on a singular matrix,
else the inverse `det⁻¹ • adjugate`. -/
def np_linalg_inv (m : M4) : Except String M4 :=
  if m.det = 0 then
    Except.error "LinAlgError: Singular matrix"
  else
    Except.ok ((m.det)⁻¹ • m.adjugate)

/-- `get_cam2world(path, sensor_poses)` with `basename` the file's base
name without extension: `int(basename)` (uncaught `ValueError` on a
non-numeric name), then pose-table lookup (`None` when the timestamp has
no entry), then inversion of the stored world-to-camera matrix. -/
def get_cam2world (basename : String) (sensor_poses : List (ℕ × M4)) :
    Except String (Option M4) :=
  match python_int basename with
  | Except.error e => Except.error e
  | Except.ok time_stamp =>
    match sensor_poses.lookup time_stamp with
    | none => Except.ok none
    | some world2cam =>
      match np_linalg_inv world2cam with
      | Except.error e => Except.error e
      | Except.ok m => Except.ok (some m)

/-- Camera selection in `main()`: `camera` is assigned by two sequential
`if` statements, `if args.short_throw` then `if args.long_throw`, so the
long-throw assignment overwrites the short-throw one. -/
def select_camera (short_throw long_throw : Bool) : Option String :=
  let camera : Option String := none
  let camera := if short_throw then some "short_throw_depth" else camera
  let camera := if long_throw then some "long_throw_depth" else camera
  camera

/-- The camera folders processed by one run of `main()`: `process_folder`
is called exactly once, on the selected camera. -/
def processed_folders (short_throw long_throw : Bool) : List String :=
  (select_camera short_throw long_throw).toList

/-- Outcome of processing one frame of the `process_folder` loop. -/
structure FrameResult where
  points : List R3
  didWrite : Bool
  fileAfter : Option (List (List ObjTok))

/-- One iteration of the frame loop of `process_folder`.  `fileBefore` is
the current contents of this frame's output file (`none`: no file exists).
If the file exists and `use_cache` is set, the points are read back from it
(bypassing the unprojector); otherwise the image is decoded, the pose
resolved (when sensor poses are in use) and the unprojector run.  The file
is then written exactly when no file existed or `overwrite` is set.  Any
exception aborts the iteration (and the run). -/
noncomputable def process_frame (use_cache overwrite : Bool)
    (fileBefore : Option (List (List ObjTok)))
    (img : List (List ℕ)) (us vs : List (List PyF))
    (basename : String) (sensor_poses : Option (List (ℕ × M4)))
    (depth_range : ℚ × ℚ) : Except String FrameResult :=
  let output_file_exist := fileBefore.isSome
  let pointsE : Except String (List R3) :=
    if output_file_exist && use_cache then
      read_obj (fileBefore.getD [])
    else
      match (match sensor_poses with
             | some poses => get_cam2world basename poses
             | none => Except.ok none) with
      | Except.error e => Except.error e
      | Except.ok cam2world =>
        Except.ok (get_points img us vs cam2world depth_range).1
  match pointsE with
  | Except.error e => Except.error e
  | Except.ok points =>
    if !output_file_exist || overwrite then
      Except.ok ⟨points, true, some (save_obj points)⟩
    else
      Except.ok ⟨points, false, fileBefore⟩

/-- With no pose, `R = np.eye(3)`, `t = np.zeros(3)`: the transform leaves
the camera-space point unchanged. -/
theorem rot_apply_none (p : R3) : rot_apply (poseR none) (poseT none) p = p := by
  obtain ⟨a, b, c⟩ := p
  simp [rot_apply, poseR, poseT, Fin.ext_iff]

/-- C2: a pixel emits no point when a ray component is infinite or the raw
decoded distance lies outside the closed interval (the comparison is on `D`
itself), and emits exactly one point when both components are finite and
`D` is strictly inside the interval; no clamped point is ever produced. -/
theorem c2_range_filter (r : ℚ × ℚ) (R : Fin 3 → Fin 3 → ℚ) (t : Fin 3 → ℚ)
    (x y : PyF) (D : ℚ) :
    ((np_isinf x = true ∨ np_isinf y = true ∨ D < r.1 ∨ r.2 < D) →
      unproject_pixel r R t x y D = none)
    ∧ ((np_isinf x = false ∧ np_isinf y = false ∧ r.1 < D ∧ D < r.2) →
      ∃ p, unproject_pixel r R t x y D = some p) := by
  constructor
  · intro h
    unfold unproject_pixel
    rw [if_pos h]
  · rintro ⟨hx, hy, hlo, hhi⟩
    have hcond : ¬(np_isinf x = true ∨ np_isinf y = true ∨ D < r.1 ∨ r.2 < D) := by
      push_neg
      exact ⟨by simp [hx], by simp [hy], le_of_lt hlo, le_of_lt hhi⟩
    cases hval : unproject_pixel r R t x y D with
    | some p => exact ⟨p, rfl⟩
    | none =>
      exfalso
      unfold unproject_pixel at hval
      rw [if_neg hcond] at hval
      simp at hval

/-- Closed-form instance of `c2_range_filter`: with range `[0.02, 3]` and
finite zero rays, `D = 5` (out of range) emits no point; `D = 1.5`
(strictly inside) emits exactly one point. -/
theorem c2_witness :
    (unproject_pixel ((1 : ℚ)/50, 3) (poseR none) (poseT none)
      (PyF.finite 0) (PyF.finite 0) 5 = none)
    ∧ (∃ p, unproject_pixel ((1 : ℚ)/50, 3) (poseR none) (poseT none)
      (PyF.finite 0) (PyF.finite 0) (3/2) = some p) :=
  ⟨(c2_range_filter ((1 : ℚ)/50, 3) (poseR none) (poseT none)
      (PyF.finite 0) (PyF.finite 0) 5).1
      (Or.inr (Or.inr (Or.inr (by norm_num)))),
   (c2_range_filter ((1 : ℚ)/50, 3) (poseR none) (poseT none)
      (PyF.finite 0) (PyF.finite 0) (3/2)).2
      ⟨rfl, rfl, by norm_num, by norm_num⟩⟩

/-- Helper: the concrete pixel of the end-to-end scenario — zero rays,
decoded distance `1.5`, range `[0.02, 3]`, no pose — emits `(0, 0, -1.5)`. -/
theorem unproject_pixel_zero_ray :
    unproject_pixel ((1 : ℚ)/50, 3) (poseR none) (poseT none)
      (PyF.finite 0) (PyF.finite 0) (3/2)
      = some ((0 : ℝ), (0 : ℝ), -(3/2 : ℝ)) := by
  have hcond : ¬(np_isinf (PyF.finite (0 : ℚ)) = true ∨ np_isinf (PyF.finite (0 : ℚ)) = true ∨
      (3 : ℚ)/2 < ((1 : ℚ)/50, (3 : ℚ)).1 ∨ ((1 : ℚ)/50, (3 : ℚ)).2 < (3 : ℚ)/2) := by
    push_neg
    refine ⟨by simp [np_isinf], by simp [np_isinf], by norm_num, by norm_num⟩
  unfold unproject_pixel
  rw [if_neg hcond]
  simp only [PyF.val]
  rw [rot_apply_none]
  norm_num [Real.sqrt_one]

/-- C1: a pixel with finite ray components `(x, y)` and decoded distance
`D` inside the closed depth range emits exactly the camera-space point
`(x, y, 1) * z` with `z = -D / sqrt(x^2 + y^2 + 1)`; and the 2x2 image
whose four raw big-endian samples encode 1500 (decoding to 1.5 m), with
`u = v = 0` everywhere, range `[0.02, 3]` and no pose, yields exactly 4
points, each `(0, 0, -1.5)`. -/
theorem c1_unprojection (x y D mn mx : ℚ) (h1 : mn ≤ D) (h2 : D ≤ mx) :
    (unproject_pixel (mn, mx) (poseR none) (poseT none) (PyF.finite x) (PyF.finite y) D
      = some ((x : ℝ) * (-(D : ℝ) / Real.sqrt ((x : ℝ) * (x : ℝ) + (y : ℝ) * (y : ℝ) + 1)),
              (y : ℝ) * (-(D : ℝ) / Real.sqrt ((x : ℝ) * (x : ℝ) + (y : ℝ) * (y : ℝ) + 1)),
              -(D : ℝ) / Real.sqrt ((x : ℝ) * (x : ℝ) + (y : ℝ) * (y : ℝ) + 1)))
    ∧ (get_points
        [[be16_store 1500, be16_store 1500], [be16_store 1500, be16_store 1500]]
        [[PyF.finite 0, PyF.finite 0], [PyF.finite 0, PyF.finite 0]]
        [[PyF.finite 0, PyF.finite 0], [PyF.finite 0, PyF.finite 0]]
        none ((1 : ℚ)/50, 3)).1
      = [((0 : ℝ), (0 : ℝ), -(3/2 : ℝ)), (0, 0, -(3/2)), (0, 0, -(3/2)), (0, 0, -(3/2))] := by
  constructor
  · have hcond : ¬(np_isinf (PyF.finite x) = true ∨ np_isinf (PyF.finite y) = true ∨
        D < (mn, mx).1 ∨ (mn, mx).2 < D) := by
      push_neg
      exact ⟨by simp [np_isinf], by simp [np_isinf], h1, h2⟩
    unfold unproject_pixel
    rw [if_neg hcond]
    simp only [PyF.val]
    rw [rot_apply_none]
  · have hdec : (pgm2distance
        [[be16_store 1500, be16_store 1500], [be16_store 1500, be16_store 1500]]).1
        = [[(3/2 : ℚ), 3/2], [3/2, 3/2]] := by
      norm_num [pgm2distance, be16_store, bswap16]
    have hr2 : List.range 2 = [0, 1] := rfl
    simp only [get_points, hdec, List.length_cons, List.length_nil, hr2,
      List.flatMap_cons, List.flatMap_nil, List.filterMap_cons, List.filterMap_nil,
      List.getD_cons_zero, List.getD_cons_succ, List.append_nil, unproject_pixel_zero_ray]
    rfl

/-- Closed instance of `c1_unprojection` at ray `(0, 0)`, distance `1.5`,
range `[0.02, 3]`. -/
theorem c1_witness :
    (unproject_pixel ((1 : ℚ)/50, 3) (poseR none) (poseT none)
      (PyF.finite 0) (PyF.finite 0) (3/2)
      = some (((0 : ℚ) : ℝ) * (-((3/2 : ℚ) : ℝ) /
                Real.sqrt (((0 : ℚ) : ℝ) * ((0 : ℚ) : ℝ) + ((0 : ℚ) : ℝ) * ((0 : ℚ) : ℝ) + 1)),
              ((0 : ℚ) : ℝ) * (-((3/2 : ℚ) : ℝ) /
                Real.sqrt (((0 : ℚ) : ℝ) * ((0 : ℚ) : ℝ) + ((0 : ℚ) : ℝ) * ((0 : ℚ) : ℝ) + 1)),
              -((3/2 : ℚ) : ℝ) /
                Real.sqrt (((0 : ℚ) : ℝ) * ((0 : ℚ) : ℝ) + ((0 : ℚ) : ℝ) * ((0 : ℚ) : ℝ) + 1)))
    ∧ (get_points
        [[be16_store 1500, be16_store 1500], [be16_store 1500, be16_store 1500]]
        [[PyF.finite 0, PyF.finite 0], [PyF.finite 0, PyF.finite 0]]
        [[PyF.finite 0, PyF.finite 0], [PyF.finite 0, PyF.finite 0]]
        none ((1 : ℚ)/50, 3)).1
      = [((0 : ℝ), (0 : ℝ), -(3/2 : ℝ)), (0, 0, -(3/2)), (0, 0, -(3/2)), (0, 0, -(3/2))] :=
  c1_unprojection 0 0 (3/2) (1/50) 3 (by norm_num) (by norm_num)

/-- C3: the decoder byte-swaps every element — a reinterpretation that
exchanges the two bytes, not a value negation — then scales by `1/1000`;
a sample whose big-endian encoding represents 2500 decodes to exactly
`5/2 = 2.5` meters (hence within `1e-6`). -/
theorem c3_depth_decoder (img : List (List ℕ)) (hi lo : ℕ) :
    (pgm2distance img).1 = img.map (fun row => row.map (fun n => (bswap16 n : ℚ) / 1000))
    ∧ (hi < 256 → lo < 256 → bswap16 (256 * hi + lo) = 256 * lo + hi)
    ∧ (pgm2distance [[be16_store 2500]]).1 = [[(5/2 : ℚ)]] := by
  refine ⟨?_, ?_, ?_⟩
  · simp [pgm2distance, List.map_map, Function.comp]
  · intro h1 h2
    simp only [bswap16]
    omega
  · norm_num [pgm2distance, be16_store, bswap16]

/-- Closed instance of `c3_depth_decoder`: the byte swap exchanges the
bytes of 2500 = 9*256 + 196, and the stored big-endian sample for 2500
decodes to 2.5 m. -/
theorem c3_witness :
    bswap16 (256 * 9 + 196) = 256 * 196 + 9
    ∧ (pgm2distance [[be16_store 2500]]).1 = [[(5/2 : ℚ)]] :=
  ⟨(c3_depth_decoder [] 9 196).2.1 (by norm_num) (by norm_num),
   (c3_depth_decoder [] 9 196).2.2⟩

/-- C8: the decoder mutates its input — after the call the caller's array
holds the byte-swapped values (and `get_points` propagates this mutation) —
so a second decode of the same array object yields different distances, as
the concrete sample 1500 shows. -/
theorem c8_decoder_mutates (img : List (List ℕ)) (us vs : List (List PyF))
    (c : Option M4) (r : ℚ × ℚ) :
    (pgm2distance img).2 = img.map (fun row => row.map bswap16)
    ∧ (get_points img us vs c r).2 = img.map (fun row => row.map bswap16)
    ∧ (pgm2distance ((pgm2distance [[be16_store 1500]]).2)).1
        ≠ (pgm2distance [[be16_store 1500]]).1 := by
  refine ⟨rfl, rfl, ?_⟩
  norm_num [pgm2distance, be16_store, bswap16]

/-- C9: with both camera selections enabled, the sequential `if`
assignments leave the long-throw camera, and exactly one folder is
processed (whatever the short-throw flag is). -/
theorem c9_camera_selection (s : Bool) :
    select_camera s true = some "long_throw_depth"
    ∧ processed_folders true true = ["long_throw_depth"]
    ∧ (processed_folders true true).length = 1 := by
  refine ⟨?_, rfl, rfl⟩
  cases s <;> rfl

/-- C10: a non-comment, non-point line is ignored only when it has a first
token; a blank (token-less) line makes the reader fail with the
out-of-range access of `elem[0]`. -/
theorem c10_blank_line (s : String) (q : ℚ) (ts : List ObjTok)
    (rest : List (List ObjTok)) :
    read_obj ((ObjTok.other s :: ts) :: rest) = read_obj rest
    ∧ read_obj ((ObjTok.num q :: ts) :: rest) = read_obj rest
    ∧ read_obj ([] :: rest) = Except.error "IndexError: list index out of range" :=
  ⟨rfl, rfl, rfl⟩

/-- C5: parsing the ray-table blob for target width `w` and height `h`
succeeds exactly when the float count is `2*w*h`; on success it returns two
`(h, w)`-shaped arrays, and a blob of `2*w*h - 1` floats fails. -/
theorem c5_ray_table_shape (proj : List PyF) (w h : ℕ) :
    ((∃ uv, parse_projection_bin proj w h = Except.ok uv) ↔ proj.length = 2 * (w * h))
    ∧ (proj.length = 2 * (w * h) →
        ∃ u v, parse_projection_bin proj w h = Except.ok (u, v)
          ∧ u.length = h ∧ v.length = h
          ∧ (∀ row ∈ u, row.length = w) ∧ (∀ row ∈ v, row.length = w))
    ∧ (0 < w * h → proj.length = 2 * (w * h) - 1 →
        ∃ e, parse_projection_bin proj w h = Except.error e) := by
  have hmain : (proj.length + 1) / 2 = w * h → proj.length / 2 = w * h →
      parse_projection_bin proj w h = Except.ok
        ((List.range h).map (fun r => (List.range w).map (fun c =>
          ((List.range (w * h)).map
            (fun k => proj.getD (2 * k) (PyF.finite 0))).getD (c * h + r) (PyF.finite 0))),
         (List.range h).map (fun r => (List.range w).map (fun c =>
          ((List.range (w * h)).map
            (fun k => proj.getD (2 * k + 1) (PyF.finite 0))).getD (c * h + r) (PyF.finite 0)))) := by
    intro hx hy
    simp only [parse_projection_bin, np_reshape_t, List.length_map, List.length_range, hx, hy,
      if_true, eq_self_iff_true]
  have herr : ¬proj.length = 2 * (w * h) → ∃ e, parse_projection_bin proj w h = Except.error e := by
    intro hne
    by_cases hx : (proj.length + 1) / 2 = w * h
    · have hy : ¬(proj.length / 2 = w * h) := by omega
      refine ⟨"ValueError: cannot reshape array", ?_⟩
      simp only [parse_projection_bin, np_reshape_t, List.length_map, List.length_range, hx,
        if_true, eq_self_iff_true, if_neg hy]
    · refine ⟨"ValueError: cannot reshape array", ?_⟩
      simp only [parse_projection_bin, np_reshape_t, List.length_map, List.length_range,
        if_neg hx]
  refine ⟨⟨?_, ?_⟩, ?_, ?_⟩
  · rintro ⟨uv, huv⟩
    by_contra hne
    obtain ⟨e, he⟩ := herr hne
    rw [he] at huv
    exact Except.noConfusion huv
  · intro hlen
    exact ⟨_, hmain (by omega) (by omega)⟩
  · intro hlen
    refine ⟨_, _, hmain (by omega) (by omega), by simp, by simp, ?_, ?_⟩
    · intro row hrow
      simp only [List.mem_map] at hrow
      obtain ⟨r, _, hr⟩ := hrow
      simp [← hr]
    · intro row hrow
      simp only [List.mem_map] at hrow
      obtain ⟨r, _, hr⟩ := hrow
      simp [← hr]
  · intro hwh hlen
    exact herr (by omega)

/-- Closed instance of `c5_ray_table_shape` at `w = h = 1`: a 2-float blob
parses into two 1x1 arrays; a 1-float blob fails. -/
theorem c5_witness :
    (∃ u v, parse_projection_bin [PyF.finite 0, PyF.finite 0] 1 1 = Except.ok (u, v)
      ∧ u.length = 1 ∧ v.length = 1
      ∧ (∀ row ∈ u, row.length = 1) ∧ (∀ row ∈ v, row.length = 1))
    ∧ (∃ e, parse_projection_bin [PyF.finite 0] 1 1 = Except.error e) :=
  ⟨(c5_ray_table_shape [PyF.finite 0, PyF.finite 0] 1 1).2.1 rfl,
   (c5_ray_table_shape [PyF.finite 0] 1 1).2.2 (by norm_num) rfl⟩

/-- C6: reading back a written cloud returns the same number of points in
the same order, each coordinate rounded to 4 fractional decimal digits;
 the empty cloud writes just the header comment line and reads back empty. -/
theorem c6_roundtrip (P : List R3) :
    read_obj (save_obj P) = Except.ok (P.map (fun p =>
      (((fmt4 p.1 : ℚ) : ℝ), ((fmt4 p.2.1 : ℚ) : ℝ), ((fmt4 p.2.2 : ℚ) : ℝ))))
    ∧ save_obj ([] : List R3) = [[ObjTok.hash, ObjTok.other "OBJ", ObjTok.other "file"]]
    ∧ read_obj (save_obj ([] : List R3)) = Except.ok [] := by
  refine ⟨?_, rfl, rfl⟩
  unfold save_obj
  show read_obj (P.map _) = _
  induction P with
  | nil => rfl
  | cons p rest ih =>
    simp only [List.map_cons, read_obj, tok2float, ih]

/-- C7: whenever a frame's processing completes, the output file is written
exactly when no output file existed or the overwrite flag is set; a
cache-hit frame whose file exists, with overwrite disabled, performs no
write and leaves the file unchanged. -/
theorem c7_write_policy (use_cache overwrite : Bool) (fileBefore : Option (List (List ObjTok)))
    (img : List (List ℕ)) (us vs : List (List PyF)) (basename : String)
    (sensor_poses : Option (List (ℕ × M4))) (depth_range : ℚ × ℚ) (r : FrameResult)
    (hok : process_frame use_cache overwrite fileBefore img us vs basename sensor_poses
      depth_range = Except.ok r) :
    (r.didWrite = (!fileBefore.isSome || overwrite))
    ∧ (fileBefore.isSome = true → overwrite = false →
        r.fileAfter = fileBefore ∧ r.didWrite = false) := by
  simp only [process_frame] at hok
  split at hok
  · exact Except.noConfusion hok
  · split at hok
    · rename_i points hpts hcond
      obtain rfl : (⟨points, true, some (save_obj points)⟩ : FrameResult) = r := by
        injection hok
      refine ⟨hcond.symm, ?_⟩
      intro h1 h2
      rw [h1, h2] at hcond
      simp at hcond
    · rename_i points hpts hcond
      obtain rfl : (⟨points, false, fileBefore⟩ : FrameResult) = r := by
        injection hok
      have hcond2 : (!fileBefore.isSome || overwrite) = false := by
        cases h : (!fileBefore.isSome || overwrite) with
        | false => rfl
        | true => exact absurd h hcond
      exact ⟨hcond2.symm, fun _ _ => ⟨rfl, rfl⟩⟩

/-- Closed instance of `c7_write_policy`: existing file (the empty cloud's
file), cache enabled, overwrite disabled — no write, file unchanged. -/
theorem c7_witness :
    ((⟨[], false, some (save_obj [])⟩ : FrameResult).didWrite
        = (!(some (save_obj ([] : List R3))).isSome || false))
    ∧ ((some (save_obj ([] : List R3))).isSome = true → false = false →
        (⟨[], false, some (save_obj [])⟩ : FrameResult).fileAfter
            = some (save_obj ([] : List R3))
        ∧ (⟨[], false, some (save_obj [])⟩ : FrameResult).didWrite = false) :=
  c7_write_policy true false (some (save_obj [])) [] [] [] "1" none (0, 1)
    ⟨[], false, some (save_obj [])⟩ (by rfl)
/-- C4 counterexample: for the non-numeric base name `"foo"`, pose
resolution raises the uncaught `ValueError` of `int()`; it does not report
"no resolvable pose". -/
theorem c4_counterexample :
    get_cam2world "foo" [] = Except.error "ValueError: invalid literal for int with base 10"
    ∧ get_cam2world "foo" [] ≠ Except.ok none := by
  have h : python_int "foo"
      = Except.error "ValueError: invalid literal for int with base 10" := by rfl
  constructor
  · unfold get_cam2world
    rw [h]
  · intro hc
    unfold get_cam2world at hc
    rw [h] at hc
    exact Except.noConfusion hc

/-- C4 amended: when pose usage is enabled and the frame's base name is
not purely numeric, `int()` raises `ValueError`, which `get_cam2world`
does not catch — the frame processor propagates it and the run aborts,
rather than processing the frame; the identity transform is used only when
the base name parses but the timestamp has no pose-table entry (lookup
returns `None`). -/
theorem c4_amended (s s2 e : String) (ts : ℕ) (poses : List (ℕ × M4))
    (use_cache overwrite : Bool) (img : List (List ℕ)) (us vs : List (List PyF))
    (depth_range : ℚ × ℚ) :
    (python_int s = Except.error e →
      get_cam2world s poses = Except.error e
      ∧ process_frame use_cache overwrite none img us vs s (some poses) depth_range
          = Except.error e)
    ∧ (python_int s2 = Except.ok ts → poses.lookup ts = none →
        get_cam2world s2 poses = Except.ok none) := by
  constructor
  · intro he
    have hgc : get_cam2world s poses = Except.error e := by
      unfold get_cam2world
      rw [he]
    refine ⟨hgc, ?_⟩
    simp [process_frame, hgc]
  · intro h2 hlk
    unfold get_cam2world
    rw [h2]
    simp only [hlk]

/-- Closed instance of `c4_amended`: base name `"foo"` aborts frame
processing with `ValueError`; numeric base name `"123"` absent from the
pose table resolves to no pose (identity transform downstream). -/
theorem c4_witness :
    (get_cam2world "foo" [] = Except.error "ValueError: invalid literal for int with base 10"
      ∧ process_frame true false none [] [] [] "foo" (some []) (0, 1)
          = Except.error "ValueError: invalid literal for int with base 10")
    ∧ get_cam2world "123" [] = Except.ok none :=
  ⟨(c4_amended "foo" "123" "ValueError: invalid literal for int with base 10" 123 [] true false
      [] [] [] (0, 1)).1 (by rfl),
   (c4_amended "foo" "123" "ValueError: invalid literal for int with base 10" 123 [] true false
      [] [] [] (0, 1)).2 (by rfl) rfl⟩
